import Mathlib

/-!
Verification of the buddy desktop-character renderer.

The definitions below are a shallow embedding of `src/render/mod.rs`
(the `activate` function and its three callbacks) together with the
animation driver (`GifPaintable` in `render/gif.rs`) and the behavioral
state type (`render/state.rs`).  Both of the latter files are not part
of the provided sources, so their operations are modelled from the
specification, as marked on each definition.

Machine integers (`i32`) are embedded as `Int`.  The character position
is an `f64` in the source, but it is always integer-valued: it starts as
an `i32` cast, and every movement tick either adds/subtracts the literal
`10.0` or wraps to an integer screen bound, all of which are exact `f64`
operations at these magnitudes.  Positions are therefore embedded as
`Int` as well, which is faithful on every reachable value.
-/

namespace Buddy

/-- Behavioral state of the character (`render/state.rs`, re-exported as
`State`).  The three variants come from the spec's data model:
`Idle`, `Running`, `Click`. -/
inductive State where
  | Idle
  | Running
  | Click
deriving DecidableEq, Repr

/-- Modelled from the spec: the negation/toggle operation on `State`
(the `Not` implementation in the missing `render/state.rs`), which
"maps `Idle ↔ Running` ... while leaving `Click` unaffected by toggling
semantics". -/
def State.not : State → State
  | .Idle => .Running
  | .Running => .Idle
  | .Click => .Click

/-- One decoded animation frame: an opaque image handle together with its
display duration. -/
structure Frame where
  image : Nat
  duration : Nat
deriving DecidableEq, Repr

/-- Modelled from the spec: the animation driver (`GifPaintable` in the
missing `render/gif.rs`).  It owns the per-state frame sequences and the
animation cursor (current state, current frame index, accumulated
elapsed time). -/
structure GifPaintable where
  sprites : State → List Frame
  state : State
  frameIdx : Nat
  elapsed : Nat

/-- Errors surfaced by the renderer (`error.rs`, only the variants the
claims mention). -/
inductive BuddyError where
  | NoScreenResolution
  | CoordinatesOutOfBounds (x y screenWidth screenHeight width height : Int)
  | LoadFailureDecode
  | LoadFailureMissingState (s : State)
deriving DecidableEq, Repr

/-- Modelled from the spec: `load_animations` "parses/decodes all required
BehavioralState sequences from the given source location.  On any decode
or missing-state failure, returns an error and must not mutate the
currently active sprite set (atomic replace-on-success)."  The decoding
step itself is external; its outcome is the `decoded` argument (`none`
for a decode failure, otherwise the decoded per-state sequences, which
must all be non-empty). -/
def GifPaintable.load_animations (g : GifPaintable)
    (decoded : Option (State → List Frame)) : GifPaintable × Option BuddyError :=
  match decoded with
  | none => (g, some .LoadFailureDecode)
  | some m =>
    if (m .Idle).isEmpty then (g, some (.LoadFailureMissingState .Idle))
    else if (m .Running).isEmpty then (g, some (.LoadFailureMissingState .Running))
    else if (m .Click).isEmpty then (g, some (.LoadFailureMissingState .Click))
    else ({ g with sprites := m }, none)

/-- Modelled from the spec: `current_frame()` "returns the image to
display for `(current state, current frame index)`.  Pure read, no side
effect." -/
def GifPaintable.current_frame (g : GifPaintable) : Option Frame :=
  (g.sprites g.state).get? g.frameIdx

/-- Modelled from the spec: `switch_state(new_state)` (named
`switch_animation` at the call sites in `render/mod.rs`): "if
`new_state != current_state`, replaces current_state and resets cursor to
frame 0.  Idempotent when state unchanged (no reset ...)." -/
def GifPaintable.switch_animation (g : GifPaintable) (s : State) : GifPaintable :=
  if s = g.state then g
  else { g with state := s, frameIdx := 0, elapsed := 0 }

/-- Modelled from the spec: `advance(elapsed)` "accumulates elapsed time;
when accumulated time exceeds the current frame's display duration,
advances to the next frame index, wrapping to 0 at sequence end", one
frame per call at most (no catch-up skipping). -/
def GifPaintable.advance (g : GifPaintable) (elapsed : Nat) : GifPaintable :=
  match (g.sprites g.state).get? g.frameIdx with
  | none => { g with elapsed := g.elapsed + elapsed }
  | some f =>
    if f.duration < g.elapsed + elapsed then
      { g with frameIdx := (g.frameIdx + 1) % (g.sprites g.state).length, elapsed := 0 }
    else { g with elapsed := g.elapsed + elapsed }

/-- Iterated `advance` over a list of per-tick elapsed durations. -/
def GifPaintable.advanceMany (g : GifPaintable) (es : List Nat) : GifPaintable :=
  es.foldl GifPaintable.advance g

/-- The click handler (`gesture.connect_pressed` closure in `activate`,
`render/mod.rs` lines 190–202): ignore clicks while in `Click`; from
`Idle`, with probability `chance` (a uniformly drawn byte `draw` in
`[0,100]` at most the configured chance) switch to the `Click` reaction,
otherwise toggle the state via negation. -/
def clickPressed (g : GifPaintable) (draw : Nat) (chance : Nat) : GifPaintable :=
  if g.state ≠ State.Click then
    if g.state = State.Idle ∧ draw ≤ chance then
      g.switch_animation State.Click
    else
      g.switch_animation g.state.not
  else g

/-- The startup bounds check of `activate` (`render/mod.rs` lines
106–115): unless `debug` is set, reject starting coordinates whose
rectangle pokes out of the screen. -/
def checkStartCoordinates (debug : Bool) (x y width height screenWidth screenHeight : Int) :
    Option BuddyError :=
  if ¬debug ∧ (x + width ≥ screenWidth ∨ x < 0 ∨ y + height ≥ screenHeight ∨ y < 0) then
    some (.CoordinatesOutOfBounds x y screenWidth screenHeight width height)
  else none

/-- Following the spec's words (for comparison with `checkStartCoordinates`):
the starting rectangle, both corners included, "fits within
`[0, screen_width) x [0, screen_height)`". -/
def rectFitsWithin (x y width height screenWidth screenHeight : Int) : Prop :=
  0 ≤ x ∧ x + width < screenWidth ∧ 0 ≤ y ∧ y + height < screenHeight

instance (x y width height screenWidth screenHeight : Int) :
    Decidable (rectFitsWithin x y width height screenWidth screenHeight) := by
  unfold rectFitsWithin; infer_instance

/-- Next horizontal position computed by the movement timeout closure
(`render/mod.rs` lines 162–178): step 10 towards the travel direction,
wrapping to the opposite screen edge when leaving the screen. -/
def moveNextX (left : Bool) (screenWidth width x : Int) : Int :=
  if left then
    if x - 10 ≤ -width then screenWidth else x - 10
  else
    if x + 10 ≥ screenWidth then -width else x + 10

/-- The input-acceptance rectangle handed to `update_input_region`. -/
structure InputRegion where
  width : Int
  height : Int
  x : Int
  y : Int
deriving DecidableEq, Repr

/-- The mutable presentation state the timeout closures act on: the
animation driver, the character's position inside the `Fixed` container,
and the window's input-acceptance region. -/
structure RenderState where
  paintable : GifPaintable
  charX : Int
  charY : Int
  region : InputRegion

/-- The state set up by `activate` before the timeouts start
(`render/mod.rs` lines 127 and 133): the character is put at the
configured `(x, y)` and the input region is installed at
`(width, height, x, 0)` — the `y` argument of `update_input_region` is
the literal `0`, not the configured `y`. -/
def startupState (g : GifPaintable) (x y width height : Int) : RenderState :=
  { paintable := g
    charX := x
    charY := y
    region := { width := width, height := height, x := x, y := 0 } }

/-- The movement timeout closure (`render/mod.rs` lines 156–185): when the
state is `Running`, step the horizontal position with wraparound, move
the character (same `y`), and recompute the input region at the new `x`
with vertical offset `0`; otherwise do nothing. -/
def movementTick (left : Bool) (screenWidth width height : Int) (s : RenderState) :
    RenderState :=
  if s.paintable.state = State.Running then
    let x := moveNextX left screenWidth width s.charX
    { s with
      charX := x
      region := { width := width, height := height, x := x, y := 0 } }
  else s

/-- Outcome of one reload timeout tick. -/
structure TickOutcome where
  paintable : GifPaintable
  attempted : Bool
  flagAfter : Bool
  keepGoing : Bool

/-- The reload timeout closure (`render/mod.rs` lines 138–151):
`automatic_reload || reload_sprites.swap(false, Relaxed)` — the swap is
short-circuited away when `automatic_reload` is set, otherwise it clears
the flag and yields its previous value; on a hit, `load_animations` is
attempted (a failure only logs a warning), and the closure always
returns `ControlFlow::from(true)`. -/
def reloadTick (automaticReload flag : Bool) (g : GifPaintable)
    (decoded : Option (State → List Frame)) : TickOutcome :=
  if automaticReload || flag then
    { paintable := (g.load_animations decoded).1
      attempted := true
      flagAfter := if automaticReload then flag else false
      keepGoing := true }
  else
    { paintable := g
      attempted := false
      flagAfter := if automaticReload then flag else false
      keepGoing := true }

/-- The `signal_hook::flag::register` handler (`render/mod.rs` lines
62–66): an incoming `SIGUSR1`/`SIGUSR2` stores `true` into the shared
flag, whatever its previous value. -/
def signalReload (_flag : Bool) : Bool := true

/-- The flag evolution caused by one reload tick alone (no signal in
between): cleared by the swap unless `automatic_reload` short-circuits
the swap away. -/
def reloadTickFlag (automaticReload flag : Bool) : Bool :=
  if automaticReload then flag else false

/-! Concrete sample values used by the witness theorems. -/

/-- A valid sprite set: two frames of 100 ms for every state. -/
def sampleSprites : State → List Frame :=
  fun _ => [⟨0, 100⟩, ⟨1, 100⟩]

/-- An animation driver idling on the first frame. -/
def idleG : GifPaintable :=
  { sprites := sampleSprites, state := State.Idle, frameIdx := 0, elapsed := 0 }

/-- An animation driver in the `Running` state. -/
def runningG : GifPaintable :=
  { sprites := sampleSprites, state := State.Running, frameIdx := 0, elapsed := 0 }

/-- A decode result missing the `Click` state's sequence, so that
`load_animations` fails. -/
def badDecoded : Option (State → List Frame) :=
  some fun s => if s = State.Click then [] else [⟨2, 100⟩]

/-- A render state whose driver is idle. -/
def sIdle : RenderState := startupState idleG 100 20 50 50

/-- A render state whose driver is running. -/
def sRun : RenderState := startupState runningG 100 20 50 50

/-! Helper lemmas. -/

/-- `advance` never touches the sprite set or the active state. -/
theorem GifPaintable.advance_sprites_state (g : GifPaintable) (e : Nat) :
    (g.advance e).sprites = g.sprites ∧ (g.advance e).state = g.state := by
  unfold GifPaintable.advance
  cases hf : (g.sprites g.state).get? g.frameIdx with
  | none => exact ⟨rfl, rfl⟩
  | some f =>
    dsimp only
    split <;> exact ⟨rfl, rfl⟩

/-- One `advance` keeps the frame index inside the active sequence. -/
theorem GifPaintable.advance_wf (g : GifPaintable)
    (h : g.frameIdx < (g.sprites g.state).length) (e : Nat) :
    (g.advance e).frameIdx < ((g.advance e).sprites ((g.advance e).state)).length := by
  obtain ⟨hs, hst⟩ := g.advance_sprites_state e
  rw [hs, hst]
  unfold GifPaintable.advance
  cases hf : (g.sprites g.state).get? g.frameIdx with
  | none => exact h
  | some f =>
    dsimp only
    split
    · exact Nat.mod_lt _ (by omega)
    · exact h

/-- Iterated `advance` keeps the frame index inside the (unchanged) active
sequence. -/
theorem GifPaintable.advanceMany_wf (es : List Nat) (g : GifPaintable)
    (h : g.frameIdx < (g.sprites g.state).length) :
    (g.advanceMany es).frameIdx <
      ((g.advanceMany es).sprites ((g.advanceMany es).state)).length := by
  induction es generalizing g with
  | nil => exact h
  | cons e es ih =>
    exact ih (g.advance e) (g.advance_wf h e)

/-- Iterated `advance` never touches the sprite set or the active state. -/
theorem GifPaintable.advanceMany_sprites_state (es : List Nat) (g : GifPaintable) :
    (g.advanceMany es).sprites = g.sprites ∧ (g.advanceMany es).state = g.state := by
  induction es generalizing g with
  | nil => exact ⟨rfl, rfl⟩
  | cons e es ih =>
    obtain ⟨hs, hst⟩ := ih (g.advance e)
    obtain ⟨hs1, hst1⟩ := g.advance_sprites_state e
    exact ⟨hs.trans hs1, hst.trans hst1⟩

/-- A movement tick that finds the region's vertical offset at `0` leaves
it at `0` (it either recomputes the region with `y = 0` or does not touch
it). -/
theorem movementTick_region_y (left : Bool) (screenWidth width height : Int)
    (s : RenderState) (h : s.region.y = 0) :
    (movementTick left screenWidth width height s).region.y = 0 := by
  unfold movementTick
  split
  · rfl
  · exact h

/-! Claim theorems. -/

/-- C1: on a click event the next behavioral state follows the transition
table: from `Click` no transition; from `Idle` with the drawn byte at most
the threshold, `Click`; from `Idle` with the draw above the threshold,
`Running`; from `Running` always `Idle`; and the toggle negation maps
`Idle` and `Running` to each other. -/
theorem click_transition_table (g : GifPaintable) (draw chance : Nat)
    (_hdraw : draw ≤ 100) :
    (g.state = State.Click → clickPressed g draw chance = g) ∧
    (g.state = State.Idle → draw ≤ chance →
      (clickPressed g draw chance).state = State.Click) ∧
    (g.state = State.Idle → chance < draw →
      (clickPressed g draw chance).state = State.Running) ∧
    (g.state = State.Running → (clickPressed g draw chance).state = State.Idle) ∧
    State.not State.Idle = State.Running ∧ State.not State.Running = State.Idle := by
  obtain ⟨spr, st, idx, el⟩ := g
  by_cases hdc : draw ≤ chance <;>
    cases st <;>
      simp [clickPressed, GifPaintable.switch_animation, State.not, hdc]

/-- Witness for C1 at a concrete input: from `Idle` with threshold `30`, a
draw of `20` yields `Click`. -/
theorem click_transition_table_spot :
    20 ≤ 100 ∧ idleG.state = State.Idle ∧ 20 ≤ 30 ∧
      (clickPressed idleG 20 30).state = State.Click :=
  ⟨by decide, rfl, by decide,
    (click_transition_table idleG 20 30 (by decide)).2.1 rfl (by decide)⟩

/-- C2: a movement tick steps by 10 and wraps at the screen edges: moving
left, a candidate position at most `-width` wraps to `screen_width`;
moving right, a candidate position at least `screen_width` wraps to
`-width`; otherwise the candidate is taken.  At `screen_width = 1000`,
`width = 50`: from `-45` moving left the next position is `1000`, from
`995` moving right it is `-50`. -/
theorem movement_wraparound (screenWidth width x : Int) :
    (x - 10 ≤ -width → moveNextX true screenWidth width x = screenWidth) ∧
    (-width < x - 10 → moveNextX true screenWidth width x = x - 10) ∧
    (x + 10 ≥ screenWidth → moveNextX false screenWidth width x = -width) ∧
    (x + 10 < screenWidth → moveNextX false screenWidth width x = x + 10) ∧
    moveNextX true 1000 50 (-45) = 1000 ∧ moveNextX false 1000 50 995 = -50 := by
  unfold moveNextX
  refine ⟨?_, ?_, ?_, ?_, by decide, by decide⟩ <;> intro h <;> simp <;> omega

/-- Witness for C2 at the spec's concrete inputs. -/
theorem movement_wraparound_spot :
    ((-45 : Int) - 10 ≤ -50 ∧ moveNextX true 1000 50 (-45) = 1000) ∧
      ((995 : Int) + 10 ≥ 1000 ∧ moveNextX false 1000 50 995 = -50) :=
  ⟨⟨by decide, (movement_wraparound 1000 50 (-45)).1 (by decide)⟩,
    ⟨by decide, (movement_wraparound 1000 50 995).2.2.1 (by decide)⟩⟩

/-- C3: a failing reload does not mutate the active sprite set —
`current_frame` is unchanged — and the reload tick keeps the scheduler
going. -/
theorem reload_failure_preserves_sprites (auto flag : Bool) (g : GifPaintable)
    (decoded : Option (State → List Frame)) (e : BuddyError)
    (h : (g.load_animations decoded).2 = some e) :
    (g.load_animations decoded).1 = g ∧
    ((g.load_animations decoded).1).current_frame = g.current_frame ∧
    (reloadTick auto flag g decoded).paintable = g ∧
    (reloadTick auto flag g decoded).keepGoing = true := by
  have hfst : (g.load_animations decoded).1 = g := by
    unfold GifPaintable.load_animations at h ⊢
    cases decoded with
    | none => rfl
    | some m =>
      dsimp only at h ⊢
      split <;> first | rfl | (split <;> first | rfl | (split <;> first | rfl | simp_all))
  refine ⟨hfst, by rw [hfst], ?_, ?_⟩ <;> unfold reloadTick <;> split <;>
    first | exact hfst | rfl

/-- Witness for C3: a decode result missing the `Click` sequence fails and
leaves the driver untouched. -/
theorem reload_failure_preserves_sprites_spot :
    (idleG.load_animations badDecoded).2 =
        some (BuddyError.LoadFailureMissingState State.Click) ∧
      (idleG.load_animations badDecoded).1 = idleG ∧
      (reloadTick false true idleG badDecoded).paintable = idleG :=
  ⟨rfl,
    (reload_failure_preserves_sprites false true idleG badDecoded _ rfl).1,
    (reload_failure_preserves_sprites false true idleG badDecoded _ rfl).2.2.1⟩

/-- C4: with `automatic_reload` off, a reload tick consumes the shared
flag at most once: after any number of signals the flag is simply `true`,
the tick makes exactly one reload attempt and clears the flag by the
swap, and a tick with a clear flag attempts nothing. -/
theorem reload_flag_consumed_once (flag : Bool) (g : GifPaintable)
    (decoded : Option (State → List Frame)) :
    signalReload (signalReload flag) = signalReload flag ∧
    (reloadTick false (signalReload flag) g decoded).attempted = true ∧
    (reloadTick false (signalReload flag) g decoded).flagAfter = false ∧
    (reloadTick false false g decoded).attempted = false ∧
    (reloadTick false false g decoded).flagAfter = false := by
  refine ⟨rfl, ?_, rfl, rfl, rfl⟩
  simp [reloadTick, signalReload]

/-- C5: the startup bounds check fails with `CoordinatesOutOfBounds`
exactly when the debug override is off and the starting rectangle does
not fit within `[0, screen_width) x [0, screen_height)`; in particular
`x + width ≥ screen_width` fails without the override and anything passes
with it. -/
theorem startup_bounds_check (debug : Bool) (x y width height screenWidth screenHeight : Int) :
    (checkStartCoordinates debug x y width height screenWidth screenHeight =
        some (.CoordinatesOutOfBounds x y screenWidth screenHeight width height) ↔
      debug = false ∧ ¬rectFitsWithin x y width height screenWidth screenHeight) ∧
    (checkStartCoordinates debug x y width height screenWidth screenHeight = none ↔
      debug = true ∨ rectFitsWithin x y width height screenWidth screenHeight) ∧
    (x + width ≥ screenWidth → debug = false →
      checkStartCoordinates debug x y width height screenWidth screenHeight =
        some (.CoordinatesOutOfBounds x y screenWidth screenHeight width height)) ∧
    (debug = true → checkStartCoordinates debug x y width height screenWidth screenHeight = none) := by
  unfold checkStartCoordinates rectFitsWithin
  cases debug <;> split <;> simp_all
  all_goals omega

/-- Witness for C5: `x = 960`, `width = 50`, `screen_width = 1000` fails
without the override and succeeds with it. -/
theorem startup_bounds_check_spot :
    ((960 : Int) + 50 ≥ 1000 ∧
        checkStartCoordinates false 960 0 50 10 1000 100 =
          some (.CoordinatesOutOfBounds 960 0 1000 100 50 10)) ∧
      checkStartCoordinates true 960 0 50 10 1000 100 = none :=
  ⟨⟨by decide, (startup_bounds_check false 960 0 50 10 1000 100).2.2.1 (by decide) rfl⟩,
    (startup_bounds_check true 960 0 50 10 1000 100).2.2.2 rfl⟩

/-- C6: switching to a different state replaces the state and resets the
frame cursor to `0`; switching to the current state changes nothing, so a
repeated `switch_animation` never resets the cursor. -/
theorem switch_animation_cursor (g : GifPaintable) (s : State) :
    (s ≠ g.state →
      (g.switch_animation s).state = s ∧ (g.switch_animation s).frameIdx = 0) ∧
    (s = g.state → g.switch_animation s = g) ∧
    (g.switch_animation s).switch_animation s = g.switch_animation s := by
  unfold GifPaintable.switch_animation
  by_cases h : s = g.state <;> simp [h]

/-- Witness for C6: switching the idle driver to `Running` resets the
cursor, and a second identical switch is a no-op. -/
theorem switch_animation_cursor_spot :
    (State.Running ≠ idleG.state ∧
        (idleG.switch_animation State.Running).frameIdx = 0) ∧
      State.Idle = idleG.state ∧ idleG.switch_animation State.Idle = idleG :=
  ⟨⟨by decide, ((switch_animation_cursor idleG State.Running).1 (by decide)).2⟩,
    rfl, (switch_animation_cursor idleG State.Idle).2.1 rfl⟩

/-- C7: for any sequence of `advance` calls on a driver whose cursor is
inside its (non-empty) active sequence, the frame index stays inside the
sequence; one call advances by one with wraparound exactly when the
accumulated time exceeds the current frame's duration, and is otherwise
just accumulation. -/
theorem advance_stays_in_range (g : GifPaintable) (es : List Nat)
    (h : g.frameIdx < (g.sprites g.state).length) :
    (g.advanceMany es).frameIdx < (g.sprites g.state).length ∧
    ∀ f, (g.sprites g.state).get? g.frameIdx = some f →
      (∀ e, f.duration < g.elapsed + e →
        (g.advance e).frameIdx = (g.frameIdx + 1) % (g.sprites g.state).length) ∧
      (∀ e, ¬f.duration < g.elapsed + e → (g.advance e).frameIdx = g.frameIdx) := by
  constructor
  · have hwf := GifPaintable.advanceMany_wf es g h
    obtain ⟨hs, hst⟩ := GifPaintable.advanceMany_sprites_state es g
    rwa [hs, hst] at hwf
  · intro f hf
    constructor <;> intro e he <;> unfold GifPaintable.advance <;> rw [hf] <;>
      dsimp only <;> simp [he]

/-- Witness for C7: two long ticks on the sample driver keep the index in
range. -/
theorem advance_stays_in_range_spot :
    idleG.frameIdx < (idleG.sprites idleG.state).length ∧
      (idleG.advanceMany [250, 250]).frameIdx < (idleG.sprites idleG.state).length :=
  ⟨by decide, (advance_stays_in_range idleG [250, 250] (by decide)).1⟩

/-- C8: a movement tick outside the `Running` state changes nothing; in
the `Running` state it moves the horizontal position by the wraparound
step, keeps the vertical position, and recomputes the input region at the
new `x` with vertical offset `0`. -/
theorem movement_tick_noop_unless_running (left : Bool)
    (screenWidth width height : Int) (s : RenderState) :
    (s.paintable.state ≠ State.Running →
      movementTick left screenWidth width height s = s) ∧
    (s.paintable.state = State.Running →
      (movementTick left screenWidth width height s).charX =
          moveNextX left screenWidth width s.charX ∧
        (movementTick left screenWidth width height s).charY = s.charY ∧
        (movementTick left screenWidth width height s).region =
          { width := width, height := height,
            x := moveNextX left screenWidth width s.charX, y := 0 }) := by
  unfold movementTick
  by_cases h : s.paintable.state = State.Running <;> simp [h]

/-- Witness for C8: a tick on an idle driver is the identity, a tick on a
running driver keeps the vertical position. -/
theorem movement_tick_noop_spot :
    (sIdle.paintable.state ≠ State.Running ∧
        movementTick true 1000 50 50 sIdle = sIdle) ∧
      sRun.paintable.state = State.Running ∧
        (movementTick true 1000 50 50 sRun).charY = sRun.charY :=
  ⟨⟨by decide, (movement_tick_noop_unless_running true 1000 50 50 sIdle).1 (by decide)⟩,
    rfl, ((movement_tick_noop_unless_running true 1000 50 50 sRun).2 rfl).2.1⟩

/-- C9: with `automatic_reload` on, every reload tick attempts a reload
and the short-circuited disjunction never reaches the swap, so the shared
flag is left as it was; a flag set by a signal thus stays `true` through
any number of automatic-mode ticks. -/
theorem automatic_reload_ignores_flag (flag : Bool) (g : GifPaintable)
    (decoded : Option (State → List Frame)) (n : Nat) :
    (reloadTick true flag g decoded).attempted = true ∧
    (reloadTick true flag g decoded).flagAfter = flag ∧
    (reloadTickFlag true)^[n] (signalReload flag) = true := by
  refine ⟨rfl, rfl, ?_⟩
  induction n with
  | zero => rfl
  | succ n ih => rw [Function.iterate_succ_apply', ih]; rfl

/-- C10: the vertical coordinate handed to `update_input_region` is the
literal `0` both at startup and on every movement tick — even when the
configured vertical offset is non-zero and the character itself sits at
that offset — and it stays `0` through any number of ticks. -/
theorem input_region_y_always_zero (g : GifPaintable)
    (x y width height screenWidth : Int) (left : Bool) (n : Nat) :
    (startupState g x y width height).region.y = 0 ∧
    (startupState g x y width height).charY = y ∧
    (∀ s : RenderState,
      (movementTick left screenWidth width height s).region.y = 0 ∨
        (movementTick left screenWidth width height s).region = s.region) ∧
    ((movementTick left screenWidth width height)^[n]
        (startupState g x y width height)).region.y = 0 := by
  refine ⟨rfl, rfl, ?_, ?_⟩
  · intro s
    unfold movementTick
    split
    · exact Or.inl rfl
    · exact Or.inr rfl
  · induction n with
    | zero => rfl
    | succ n ih =>
      rw [Function.iterate_succ_apply']
      exact movementTick_region_y left screenWidth width height _ ih

end Buddy
